import Mathlib

/-!
Verification of the scan orchestration and fallback pipeline of the
llmguard repository.  The embedding below mirrors the comprehensive
scan route handler: the remote proxy step, the response normalizer for
backend payloads, and the local heuristic scanner bank used as a
fallback when the backend is unavailable.

Strings are modelled as lists of characters.  The JavaScript regular
expressions used by the heuristic PII detection are embedded as an
explicit backtracking matcher over a small regex syntax tree, with the
same greedy, leftmost-match, word-boundary semantics the source relies
on.  JavaScript falsy-coalescing (`x || y`) on strings and numbers is
modelled explicitly.
-/

abbrev Str := List Char

/-- Substring test: does `needle` occur contiguously inside `hay`?
Mirrors JavaScript `hay.includes(needle)`. -/
def strIncludes (needle : Str) : Str → Bool
  | [] => needle.isEmpty
  | c :: t => needle.isPrefixOf (c :: t) || strIncludes needle t

/-- ASCII lower-casing, as `String.prototype.toLowerCase` acts on the
ASCII vocabularies used by the handler. -/
def lowerStr (s : Str) : Str := s.map Char.toLower

/-- JavaScript regex word character (`\w`): letter, digit or underscore. -/
def isWordChar (c : Char) : Bool :=
  (48 ≤ c.toNat && c.toNat ≤ 57) || (65 ≤ c.toNat && c.toNat ≤ 90) ||
  (97 ≤ c.toNat && c.toNat ≤ 122) || c.toNat == 95

/-- JavaScript regex whitespace class (`\s`). -/
def isJsSpace (c : Char) : Bool :=
  let n := c.toNat
  (9 ≤ n && n ≤ 13) || n == 32 || n == 160 || n == 0x1680 ||
  (0x2000 ≤ n && n ≤ 0x200a) || n == 0x2028 || n == 0x2029 ||
  n == 0x202f || n == 0x205f || n == 0x3000 || n == 0xfeff

/-- Regex syntax: empty word, character class, concatenation,
alternation (first alternative preferred), greedy option, greedy
one-or-more, and the word-boundary assertion `\b`. -/
inductive RE where
  | eps
  | cls (p : Char → Bool)
  | seq (a b : RE)
  | alt (a b : RE)
  | opt (a : RE)
  | plus (a : RE)
  | wb

/-- Matcher state: the previously consumed character (for `\b`) and the
remaining input. -/
abbrev MState := Option Char × Str

/-- Backtracking matcher.  `RE.run fuel re st` returns the list of
states reachable after matching `re` at `st`, in JavaScript priority
order (greedy quantifiers, left alternative first); the head of the
list is the match JavaScript selects.  `fuel` bounds recursion depth
and is chosen large enough to be irrelevant at all call sites. -/
def RE.run : Nat → RE → MState → List MState
  | 0, _, _ => []
  | _ + 1, .eps, st => [st]
  | _ + 1, .cls _, (_, []) => []
  | _ + 1, .cls p, (_, c :: rest) => if p c then [(some c, rest)] else []
  | _ + 1, .wb, (prev, rest) =>
      let left := match prev with | none => false | some c => isWordChar c
      let right := match rest with | [] => false | c :: _ => isWordChar c
      if left != right then [(prev, rest)] else []
  | f + 1, .seq a b, st => (RE.run f a st).flatMap (RE.run f b)
  | f + 1, .alt a b, st => RE.run f a st ++ RE.run f b st
  | f + 1, .opt a, st => RE.run f a st ++ [st]
  | f + 1, .plus a, st =>
      (RE.run f a st).flatMap (fun st2 => RE.run f (.plus a) st2 ++ [st2])

/-- Fuel that is always sufficient for the patterns in this file:
the nesting depth of each pattern is under one hundred and every
quantified subpattern consumes at least one character per iteration. -/
def reFuel (s : Str) : Nat := s.length + 100

/-- The first (JavaScript-selected) match of `re` at the start of `s`,
given the preceding character `prev`. -/
def reFirst (re : RE) (prev : Option Char) (s : Str) : Option MState :=
  (RE.run (reFuel s) re (prev, s)).head?

def reTestAux (re : RE) : Option Char → Str → Bool
  | prev, [] => (reFirst re prev []).isSome
  | prev, c :: rest =>
      (reFirst re prev (c :: rest)).isSome || reTestAux re (some c) rest

/-- `regex.test(s)`: does `re` match anywhere in `s`? -/
def reTest (re : RE) (s : Str) : Bool := reTestAux re none s

def replaceAllAux (re : RE) (repl : Str) : Nat → Option Char → Str → Str
  | 0, _, s => s
  | _ + 1, _, [] => []
  | f + 1, prev, c :: rest =>
      match reFirst re prev (c :: rest) with
      | some (prev2, rest2) =>
          if rest2.length < rest.length + 1 then
            repl ++ replaceAllAux re repl f prev2 rest2
          else
            c :: replaceAllAux re repl f (some c) rest
      | none => c :: replaceAllAux re repl f (some c) rest

/-- `s.replace(re, repl)` with a global regex: replace every
non-overlapping leftmost match. -/
def jsReplaceAll (re : RE) (repl : Str) (s : Str) : Str :=
  replaceAllAux re repl (s.length + 1) none s

def chRE (c : Char) : RE := .cls (fun x => x == c)

def litRE (s : Str) : RE := s.foldr (fun c r => .seq (chRE c) r) .eps

def seqRE (l : List RE) : RE := l.foldr .seq .eps

def repRE (n : Nat) (a : RE) : RE := seqRE (List.replicate n a)

def starRE (a : RE) : RE := .opt (.plus a)

def digitRE : RE := .cls fun c => 48 ≤ c.toNat && c.toNat ≤ 57

def upperRE : RE := .cls fun c => 65 ≤ c.toNat && c.toNat ≤ 90

def lowerRE : RE := .cls fun c => 97 ≤ c.toNat && c.toNat ≤ 122

def alphaRE : RE := .cls fun c =>
  (65 ≤ c.toNat && c.toNat ≤ 90) || (97 ≤ c.toNat && c.toNat ≤ 122)

/-- Character class `[a-zA-Z0-9._%+-]` of the email pattern. -/
def emailLocalRE : RE := .cls fun c =>
  (48 ≤ c.toNat && c.toNat ≤ 57) || (65 ≤ c.toNat && c.toNat ≤ 90) ||
  (97 ≤ c.toNat && c.toNat ≤ 122) ||
  c == '.' || c == '_' || c == '%' || c == '+' || c == '-'

/-- Character class `[a-zA-Z0-9.-]` of the email pattern. -/
def emailDomainRE : RE := .cls fun c =>
  (48 ≤ c.toNat && c.toNat ≤ 57) || (65 ≤ c.toNat && c.toNat ≤ 90) ||
  (97 ≤ c.toNat && c.toNat ≤ 122) || c == '.' || c == '-'

/-- `[a-zA-Z0-9._%+-]+@[a-zA-Z0-9.-]+\.[a-zA-Z]{2,}` -/
def emailRE : RE :=
  seqRE [.plus emailLocalRE, chRE '@', .plus emailDomainRE, chRE '.',
         alphaRE, alphaRE, starRE alphaRE]

/-- Character class `[\s.-]` of the phone pattern. -/
def sepRE : RE := .cls fun c => isJsSpace c || c == '.' || c == '-'

/-- `\d{1,3}`, greedy: three digits preferred, then two, then one. -/
def d13RE : RE := .alt (repRE 3 digitRE) (.alt (repRE 2 digitRE) digitRE)

/-- `(\+\d{1,3})?[\s.-]?\(?\d{3}\)?[\s.-]?\d{3}[\s.-]?\d{4}` -/
def phoneRE : RE :=
  seqRE [.opt (.seq (chRE '+') d13RE), .opt sepRE, .opt (chRE '('),
         repRE 3 digitRE, .opt (chRE ')'), .opt sepRE,
         repRE 3 digitRE, .opt sepRE, repRE 4 digitRE]

/-- Character class `[\s-]` of the credit-card pattern. -/
def ccSepRE : RE := .cls fun c => isJsSpace c || c == '-'

/-- `\b(?:\d{4}[\s-]?){3}\d{4}\b` -/
def ccRE : RE :=
  seqRE [.wb, repRE 3 (.seq (repRE 4 digitRE) (.opt ccSepRE)),
         repRE 4 digitRE, .wb]

/-- `\b\d{3}[-]?\d{2}[-]?\d{4}\b` -/
def ssnRE : RE :=
  seqRE [.wb, repRE 3 digitRE, .opt (chRE '-'), repRE 2 digitRE,
         .opt (chRE '-'), repRE 4 digitRE, .wb]

def spaceClsRE : RE := .cls isJsSpace

/-- `(?:Mr\.|Mrs\.|Ms\.|Dr\.)`, alternatives in source order. -/
def honorificRE : RE :=
  .alt (litRE ("Mr.".data))
    (.alt (litRE ("Mrs.".data)) (.alt (litRE ("Ms.".data)) (litRE ("Dr.".data))))

/-- `\b(?:Mr\.|Mrs\.|Ms\.|Dr\.)?\s?[A-Z][a-z]+ (?:[A-Z][a-z]+\s?)+` -/
def nameRE : RE :=
  seqRE [.wb, .opt honorificRE, .opt spaceClsRE, upperRE, .plus lowerRE,
         chRE ' ', .plus (seqRE [upperRE, .plus lowerRE, .opt spaceClsRE])]

/-- The fixed toxic-word vocabulary of the fallback toxicity scanner. -/
def toxicWords : List Str :=
  ["shit".data, "fuck".data, "damn".data, "ass".data, "idiot".data,
   "stupid".data]

/-- The fixed secret-keyword vocabulary of the fallback secrets scanner. -/
def potentialSecrets : List Str :=
  ["api_key".data, "password".data, "secret".data, "token".data,
   "apikey".data, "api key".data, "access key".data, "private key".data]

def hasEmail (p : Str) : Bool := reTest emailRE p

def hasPhone (p : Str) : Bool := reTest phoneRE p

def hasCreditCard (p : Str) : Bool := reTest ccRE p

def hasSSN (p : Str) : Bool := reTest ssnRE p

def hasName (p : Str) : Bool := reTest nameRE p

def hasPII (p : Str) : Bool :=
  hasEmail p || hasPhone p || hasCreditCard p || hasSSN p || hasName p

def hasToxicity (p : Str) : Bool :=
  toxicWords.any fun w => strIncludes w (lowerStr p)

def hasSecrets (p : Str) : Bool :=
  potentialSecrets.any fun w => strIncludes w (lowerStr p)

/-- The redaction chain of the fallback anonymize scanner, in source
order: email, phone, credit card, SSN, then capitalized names. -/
def applySanitize (p : Str) : Str :=
  jsReplaceAll nameRE ("[REDACTED_PERSON]".data)
    (jsReplaceAll ssnRE ("[REDACTED_SSN]".data)
      (jsReplaceAll ccRE ("[REDACTED_CC]".data)
        (jsReplaceAll phoneRE ("[REDACTED_PHONE]".data)
          (jsReplaceAll emailRE ("[REDACTED_EMAIL]".data) p))))

/-- `sanitizedPrompt` after the fallback scanning block: redactions are
applied exactly when the PII detection triggered. -/
def sanitizedPromptFB (p : Str) : Str :=
  if hasPII p then applySanitize p else p

/-- A structured detail value, covering the shapes the handler stores in
the `details` maps. -/
inductive DVal where
  | b (v : Bool)
  | q (v : ℚ)
  | s (v : Str)
  | strs (v : List Str)
  | qs (v : List ℚ)
  | found (email phone creditCard ssn name : Bool)
deriving DecidableEq

/-- A `details` object: string keys mapped to structured values. -/
abbrev Details := List (String × DVal)

/-- First-key lookup in a details object. -/
def lookupD (ds : Details) (k : String) : Option DVal :=
  match ds with
  | [] => none
  | (k2, v) :: rest => if k2 = k then some v else lookupD rest k

/-- JavaScript property assignment `details[k] = v`. -/
def setKey (k : String) (v : DVal) (ds : Details) : Details :=
  (k, v) :: ds.filter fun kv => kv.1 ≠ k

/-- The inbound scan request body. -/
structure ScanRequest where
  prompt : Str
  scanners : Option (List Str)
  banned_substrings_list : Option (List Str)
  regex_patterns_list : Option (List Str)
deriving DecidableEq

/-- One per-scanner result entry of the unified response schema. -/
structure ScannerResult where
  scanner_name : Str
  input_prompt : Str
  sanitized_prompt : Str
  is_valid : Bool
  risk_score : ℚ
  details : Details
deriving DecidableEq

/-- The unified response schema returned to the caller. -/
structure ScanResponse where
  original_prompt : Str
  final_sanitized_prompt : Str
  overall_is_valid : Bool
  applied_scanners_results : List ScannerResult
deriving DecidableEq

/-- A per-scanner sub-object (`anonymize_result`, `secrets_result`, ...)
of a backend payload; every field may be absent. -/
structure SubResult where
  sanitized_prompt : Option Str
  is_valid : Option Bool
  risk_score : Option ℚ
  details : Option Details
deriving DecidableEq

/-- A parsed backend payload.  Every field is optional: the backend may
send the unified shape (then `applied_scanners_results` is present), the
legacy flat shape, or the multi-field shape with `detection` sub-objects
and per-scanner `*_result` fields. -/
structure ApiData where
  applied_scanners_results : Option (List ScannerResult)
  sanitized_prompt : Option Str
  is_valid : Option Bool
  risk_score : Option ℚ
  overall_is_valid : Option Bool
  anonymize_result : Option SubResult
  toxicity_result : Option SubResult
  secrets_result : Option SubResult
  banned_substrings_result : Option SubResult
  regex_result : Option SubResult
  code_result : Option SubResult
  detection_pii : Option (List Str)
  detection_toxicity : Option (List ℚ)
  detection_banned : Option (List Str)
deriving DecidableEq

/-- A backend payload with every field absent. -/
def emptyApiData : ApiData :=
  ⟨none, none, none, none, none, none, none, none, none, none, none,
   none, none, none⟩

/-- JavaScript `a || b` where `a` is an optional string: an absent or
empty string is falsy. -/
def jsOrStr (a : Option Str) (b : Str) : Str :=
  match a with
  | some s => if s.isEmpty then b else s
  | none => b

/-- JavaScript `a || 0` where `a` is an optional number. -/
def jsOrQ (a : Option ℚ) : ℚ :=
  match a with
  | some q => q
  | none => 0

/-- JavaScript `a !== false` where `a` is an optional boolean. -/
def notFalse : Option Bool → Bool
  | some false => false
  | _ => true

/-- The `scannerFieldMap` lookup followed by reading the mapped field
from the payload: yields the scanner-specific sub-object when the
scanner name is known and the field is present. -/
def lookupSub (d : ApiData) (name : Str) : Option SubResult :=
  if name = "anonymize".data then d.anonymize_result
  else if name = "toxicity".data then d.toxicity_result
  else if name = "secrets".data then d.secrets_result
  else if name = "bansubstrings".data then d.banned_substrings_result
  else if name = "regex".data then d.regex_result
  else if name = "code".data then d.code_result
  else none

/-- The result the normalizer builds before detail overrides: from the
scanner-specific sub-object when available, otherwise synthesized from
the payload's top-level fields (only `anonymize` inherits top-level
validity and risk). -/
def baseResult (prompt : Str) (d : ApiData) (name : Str) : ScannerResult :=
  match lookupSub d name with
  | some sub =>
      { scanner_name := name
        input_prompt := prompt
        sanitized_prompt :=
          jsOrStr sub.sanitized_prompt (jsOrStr d.sanitized_prompt prompt)
        is_valid := notFalse sub.is_valid
        risk_score := jsOrQ sub.risk_score
        details := sub.details.getD [] }
  | none =>
      { scanner_name := name
        input_prompt := prompt
        sanitized_prompt := jsOrStr d.sanitized_prompt prompt
        is_valid := if name = "anonymize".data then notFalse d.is_valid else true
        risk_score := if name = "anonymize".data then jsOrQ d.risk_score else 0
        details := [] }

/-- One normalized scanner result: the base result plus the
scanner-specific `detection` overrides. -/
def buildScannerResult (prompt : Str) (d : ApiData) (name : Str) :
    ScannerResult :=
  let r := baseResult prompt d name
  if name = "anonymize".data then
    match d.detection_pii with
    | some pii =>
        let ds := setKey "entities" (DVal.strs pii)
          (setKey "pii_detected" (DVal.b true) r.details)
        { r with details := ds }
    | none => r
  else if name = "toxicity".data then
    match d.detection_toxicity with
    | some items =>
        { r with
            details := setKey "toxicity_scores" (DVal.qs items) r.details
            is_valid := !(items.any fun score => score > mkRat 7 10) }
    | none => r
  else if name = "bansubstrings".data then
    match d.detection_banned with
    | some l =>
        { r with
            details := setKey "banned_matches" (DVal.strs l) r.details
            is_valid := l.isEmpty }
    | none => r
  else r

/-- `body.scanners || ["anonymize"]`: only an absent list defaults; an
explicit empty list is truthy in JavaScript and is kept. -/
def defaultScanners (o : Option (List Str)) : List Str :=
  o.getD ["anonymize".data]

/-- The normalizer path: one result per requested scanner name, overall
validity by conjunction, final sanitized prompt from the payload's
top-level field with the original prompt as falsy fallback. -/
def normalizeResponse (req : ScanRequest) (d : ApiData) : ScanResponse :=
  let results :=
    (defaultScanners req.scanners).map (buildScannerResult req.prompt d)
  { original_prompt := req.prompt
    final_sanitized_prompt := jsOrStr d.sanitized_prompt req.prompt
    overall_is_valid := results.all fun r => r.is_valid
    applied_scanners_results := results }

def anonymizeValidFB (p : Str) : Bool := !hasPII p

def anonymizeRiskFB (p : Str) : ℚ := if hasPII p then mkRat 8 10 else 0

def anonymizeDetailsFB (p : Str) : Details :=
  if hasPII p then
    [("pii_detected", DVal.b true),
     ("found", DVal.found (hasEmail p) (hasPhone p) (hasCreditCard p)
        (hasSSN p) (hasName p))]
  else []

def toxicityRiskFB (p : Str) : ℚ := if hasToxicity p then mkRat 9 10 else 0

def toxicityDetailsFB (p : Str) : Details :=
  if hasToxicity p then
    [("toxicity_detected", DVal.b true),
     ("words_found", DVal.strs (toxicWords.filter fun w =>
        strIncludes w (lowerStr p)))]
  else []

def secretsRiskFB (p : Str) : ℚ := if hasSecrets p then mkRat 95 100 else 0

def secretsDetailsFB (p : Str) : Details :=
  if hasSecrets p then
    [("secrets_detected", DVal.b true),
     ("potential_matches", DVal.strs (potentialSecrets.filter fun w =>
        strIncludes w (lowerStr p)))]
  else []

/-- One iteration of the fallback's per-scanner dispatch: a result for
each known scanner kind, nothing for unknown kinds. -/
def fallbackEntry (p : Str) (name : Str) : Option ScannerResult :=
  if name = "anonymize".data then
    some ⟨name, p, sanitizedPromptFB p, anonymizeValidFB p,
          anonymizeRiskFB p, anonymizeDetailsFB p⟩
  else if name = "toxicity".data then
    some ⟨name, p, p, !hasToxicity p, toxicityRiskFB p, toxicityDetailsFB p⟩
  else if name = "secrets".data then
    some ⟨name, p, p, !hasSecrets p, secretsRiskFB p, secretsDetailsFB p⟩
  else if name = "bansubstrings".data then
    some ⟨name, p, p, true, 0, [("substrings_detected", DVal.b false)]⟩
  else if name = "regex".data then
    some ⟨name, p, p, true, 0, [("regex_matches_detected", DVal.b false)]⟩
  else if name = "code".data then
    some ⟨name, p, p, true, 0, [("code_detected", DVal.b false)]⟩
  else none

/-- The fallback path: heuristic scanners over the prompt for each
requested kind, conjunction for overall validity, and the (possibly
redacted) sanitized prompt as the final text. -/
def fallbackResponse (req : ScanRequest) : ScanResponse :=
  let results :=
    (defaultScanners req.scanners).filterMap (fallbackEntry req.prompt)
  { original_prompt := req.prompt
    final_sanitized_prompt := sanitizedPromptFB req.prompt
    overall_is_valid := results.all fun r => r.is_valid
    applied_scanners_results := results }

/-- Outcome of the remote backend call. -/
inductive RemoteOutcome where
  | success (d : ApiData)
  | timeout
  | transportError
  | httpError (code : Nat)
  | malformedBody
deriving DecidableEq

def RemoteOutcome.isFailure : RemoteOutcome → Bool
  | .success _ => false
  | _ => true

/-- What the route handler sends back: a verbatim backend payload, a
response it constructed itself, or an internal error status. -/
inductive HandlerResult where
  | passthrough (d : ApiData)
  | scanResult (r : ScanResponse)
  | internalError (status : Nat)
deriving DecidableEq

/-- The handler body after a successfully parsed request: passthrough
when the payload already carries `applied_scanners_results`, the
normalizer on any other successful payload, and the heuristic fallback
on every remote failure. -/
def handleScan (req : ScanRequest) (remote : RemoteOutcome) : HandlerResult :=
  match remote with
  | .success d =>
      match d.applied_scanners_results with
      | some _ => .passthrough d
      | none => .scanResult (normalizeResponse req d)
  | _ => .scanResult (fallbackResponse req)

/-- The full route handler: an unparsable inbound body yields the 500
error response, otherwise the scan logic runs. -/
def handlePost (body : Option ScanRequest) (remote : RemoteOutcome) :
    HandlerResult :=
  match body with
  | none => .internalError 500
  | some req => handleScan req remote

/-- The closed enumeration of scanner kinds the fallback dispatch
recognizes. -/
def isKnownScanner (name : Str) : Bool :=
  if name = "anonymize".data then true
  else if name = "toxicity".data then true
  else if name = "secrets".data then true
  else if name = "bansubstrings".data then true
  else if name = "regex".data then true
  else if name = "code".data then true
  else false

theorem fallbackEntry_isSome (p n : Str) :
    (fallbackEntry p n).isSome = isKnownScanner n := by
  unfold fallbackEntry isKnownScanner
  repeat' split <;> simp_all

theorem anonymizeRiskFB_bounds (p : Str) :
    0 ≤ anonymizeRiskFB p ∧ anonymizeRiskFB p ≤ 1 := by
  unfold anonymizeRiskFB; split <;> norm_num

theorem toxicityRiskFB_bounds (p : Str) :
    0 ≤ toxicityRiskFB p ∧ toxicityRiskFB p ≤ 1 := by
  unfold toxicityRiskFB; split <;> norm_num

theorem secretsRiskFB_bounds (p : Str) :
    0 ≤ secretsRiskFB p ∧ secretsRiskFB p ≤ 1 := by
  unfold secretsRiskFB; split <;> norm_num

theorem fallbackEntry_spec (p n : Str) (r : ScannerResult)
    (h : fallbackEntry p n = some r) :
    r.scanner_name = n ∧ r.input_prompt = p ∧
    0 ≤ r.risk_score ∧ r.risk_score ≤ 1 ∧
    (¬ n = "anonymize".data → r.sanitized_prompt = p) := by
  unfold fallbackEntry at h
  repeat' split at h
  all_goals try exact Option.noConfusion h
  all_goals injection h with h2
  all_goals subst h2
  all_goals refine ⟨rfl, rfl, ?_, ?_, ?_⟩
  all_goals first
    | exact (anonymizeRiskFB_bounds p).1
    | exact (anonymizeRiskFB_bounds p).2
    | exact (toxicityRiskFB_bounds p).1
    | exact (toxicityRiskFB_bounds p).2
    | exact (secretsRiskFB_bounds p).1
    | exact (secretsRiskFB_bounds p).2
    | exact fun hne => rfl
    | (intro hne; subst ‹n = "anonymize".data›; exact absurd (by decide) hne)
    | norm_num

theorem fallback_names (p : Str) : ∀ l : List Str,
    ((l.filterMap (fallbackEntry p)).map fun r => r.scanner_name)
      = l.filter isKnownScanner
  | [] => rfl
  | a :: t => by
      rw [List.filterMap_cons, List.filter_cons]
      cases hfa : fallbackEntry p a with
      | none =>
          have hk : isKnownScanner a = false := by
            rw [← fallbackEntry_isSome p a, hfa]; rfl
          simp [hk, fallback_names p t]
      | some r =>
          have hk : isKnownScanner a = true := by
            rw [← fallbackEntry_isSome p a, hfa]; rfl
          have hn := (fallbackEntry_spec p a r hfa).1
          simp [hk, hn, fallback_names p t]

theorem baseResult_name (p : Str) (d : ApiData) (n : Str) :
    (baseResult p d n).scanner_name = n := by
  unfold baseResult; split <;> rfl

theorem buildScannerResult_name (p : Str) (d : ApiData) (n : Str) :
    (buildScannerResult p d n).scanner_name = n := by
  unfold buildScannerResult
  cases hp : d.detection_pii <;> cases ht : d.detection_toxicity <;>
    cases hb : d.detection_banned <;> (repeat' split) <;>
    simp_all [baseResult_name]

theorem buildScannerResult_sanitized (p : Str) (d : ApiData) (n : Str) :
    (buildScannerResult p d n).sanitized_prompt
      = (baseResult p d n).sanitized_prompt := by
  unfold buildScannerResult
  cases hp : d.detection_pii <;> cases ht : d.detection_toxicity <;>
    cases hb : d.detection_banned <;> (repeat' split) <;> simp_all

theorem normalizeResponse_overall (req : ScanRequest) (d : ApiData) :
    (normalizeResponse req d).overall_is_valid
      = ((normalizeResponse req d).applied_scanners_results.all fun x =>
          x.is_valid) := rfl

theorem fallbackResponse_overall (req : ScanRequest) :
    (fallbackResponse req).overall_is_valid
      = ((fallbackResponse req).applied_scanners_results.all fun x =>
          x.is_valid) := rfl

def c1Req : ScanRequest := ⟨"hi".data, some ["anonymize".data], none, none⟩

/-- A backend payload already carrying `applied_scanners_results`, whose
advertised `overall_is_valid` contradicts the conjunction of its
entries' `is_valid` flags. -/
def c1Payload : ApiData :=
  { emptyApiData with
      applied_scanners_results :=
        some [⟨"anonymize".data, "hi".data, "hi".data, false, mkRat 8 10, []⟩]
      overall_is_valid := some true }

/-- Claim C1 as stated is false: when the backend payload already
carries an `applied_scanners_results` array, the handler returns the
payload verbatim without recomputing `overall_is_valid`, so a payload
advertising `overall_is_valid = true` over an entry with
`is_valid = false` reaches the caller unchanged, and no internal
failure occurred. -/
theorem passthrough_overall_mismatch :
    handlePost (some c1Req) (.success c1Payload) = .passthrough c1Payload
  ∧ c1Payload.overall_is_valid = some true
  ∧ ((c1Payload.applied_scanners_results.getD []).all fun r => r.is_valid)
      = false :=
  ⟨rfl, rfl, rfl⟩

/-- Claim C1 (amended): for every scan response the handler constructs
itself — the normalizer path on a payload without a backend-supplied
`applied_scanners_results`, and the fallback path — `overall_is_valid`
equals the conjunction of `is_valid` over `applied_scanners_results`,
and it is true when that list is empty; only the verbatim passthrough
of a backend payload is exempt. -/
theorem constructed_overall_is_and (req : ScanRequest)
    (remote : RemoteOutcome) (r : ScanResponse)
    (h : handleScan req remote = .scanResult r) :
    r.overall_is_valid
      = (r.applied_scanners_results.all fun x => x.is_valid)
  ∧ (r.applied_scanners_results = [] → r.overall_is_valid = true) := by
  have main : r.overall_is_valid
      = (r.applied_scanners_results.all fun x => x.is_valid) := by
    unfold handleScan at h
    split at h
    · rename_i d0
      split at h
      · exact absurd h (by simp)
      · have h2 : normalizeResponse req d0 = r := by injection h
        rw [← h2]; exact normalizeResponse_overall req d0
    · have h2 : fallbackResponse req = r := by injection h
      rw [← h2]; exact fallbackResponse_overall req
  refine ⟨main, fun he => ?_⟩
  rw [main, he]
  rfl

def c1wReq : ScanRequest := ⟨"ok then".data, none, none, none⟩

theorem constructed_overall_is_and_witness :
    (fallbackResponse c1wReq).overall_is_valid
      = ((fallbackResponse c1wReq).applied_scanners_results.all fun x =>
          x.is_valid) :=
  (constructed_overall_is_and c1wReq .timeout (fallbackResponse c1wReq)
    rfl).1

def c2Req : ScanRequest :=
  ⟨"hi".data, some ["secrets".data, "secrets".data], none, none⟩

def c2uReq : ScanRequest := ⟨"hi".data, some ["wat".data], none, none⟩

/-- Claim C2 as stated is false: requesting `["secrets","secrets"]`
yields two result entries in the fallback path — duplicates are not
collapsed (the deduplicated request has a single kind) — and in the
normalizer path an unknown scanner kind `"wat"` yields a synthesized
result entry rather than being ignored. -/
theorem applied_names_duplicates_and_unknown :
    ((fallbackResponse c2Req).applied_scanners_results.map fun r =>
        r.scanner_name)
      = ["secrets".data, "secrets".data]
  ∧ ((c2Req.scanners.getD []).dedup).length = 1
  ∧ ((normalizeResponse c2uReq emptyApiData).applied_scanners_results.map
        fun r => r.scanner_name)
      = ["wat".data] := by
  refine ⟨rfl, by decide, rfl⟩

/-- Claim C2 (amended): `applied_scanners_results` has one entry per
element of the requested scanners list (after the absent-list default),
in request order, with each entry's `scanner_name` equal to that
element; duplicates are repeated, not collapsed.  Unknown kinds are
skipped without error in the fallback path, while the normalizer path
emits a synthesized default entry for every requested name, known or
not. -/
theorem applied_names_match_request (req : ScanRequest) (d : ApiData) :
    ((normalizeResponse req d).applied_scanners_results.map fun r =>
        r.scanner_name)
      = defaultScanners req.scanners
  ∧ ((fallbackResponse req).applied_scanners_results.map fun r =>
        r.scanner_name)
      = (defaultScanners req.scanners).filter isKnownScanner := by
  constructor
  · show ((defaultScanners req.scanners).map
        (buildScannerResult req.prompt d)).map (fun r => r.scanner_name)
      = defaultScanners req.scanners
    rw [List.map_map]
    simp [Function.comp_def, buildScannerResult_name]
  · exact fallback_names req.prompt (defaultScanners req.scanners)

/-- Claim C3: every remote failure outcome — timeout, transport error,
non-success HTTP status, or an unparsable backend body — makes the
handler return the complete fallback scan response, never an error
result. -/
theorem remote_failure_falls_back (req : ScanRequest)
    (remote : RemoteOutcome) (h : remote.isFailure = true) :
    handlePost (some req) remote = .scanResult (fallbackResponse req) := by
  cases remote with
  | success d => exact absurd h (by simp [RemoteOutcome.isFailure])
  | timeout => rfl
  | transportError => rfl
  | httpError code => rfl
  | malformedBody => rfl

def c3Req : ScanRequest := ⟨"ping".data, none, none, none⟩

theorem remote_failure_falls_back_witness :
    handlePost (some c3Req) .timeout
      = .scanResult (fallbackResponse c3Req) :=
  remote_failure_falls_back c3Req .timeout rfl

def c4Req : ScanRequest := ⟨"a@b.co".data, some ["secrets".data], none, none⟩

/-- Claim C4 as stated is false: for the prompt `a@b.co` with only the
`secrets` scanner requested, the fallback path still applies the
anonymize redactions — `final_sanitized_prompt` differs from the
original prompt even though `anonymize` was not among the requested
scanners. -/
theorem final_redacted_without_anonymize :
    ¬ ((fallbackResponse c4Req).final_sanitized_prompt = c4Req.prompt)
  ∧ ¬ ("anonymize".data ∈ defaultScanners c4Req.scanners) := by
  constructor <;> decide

/-- Claim C4 (amended): in the fallback path,
`final_sanitized_prompt` equals the prompt with the anonymize
redactions applied whenever the PII detection triggers — regardless of
whether `anonymize` was among the requested scanners — and equals the
original prompt otherwise; no scanner other than `anonymize` alters the
sanitized text it reports. -/
theorem fallback_final_sanitized_spec (req : ScanRequest) :
    ((fallbackResponse req).final_sanitized_prompt
      = if hasPII req.prompt then applySanitize req.prompt else req.prompt)
  ∧ ∀ r ∈ (fallbackResponse req).applied_scanners_results,
      ¬ r.scanner_name = "anonymize".data →
        r.sanitized_prompt = req.prompt := by
  refine ⟨rfl, ?_⟩
  intro r hr hn
  have hr2 : r ∈ (defaultScanners req.scanners).filterMap
      (fallbackEntry req.prompt) := hr
  rw [List.mem_filterMap] at hr2
  obtain ⟨a, _, hfa⟩ := hr2
  have hs := fallbackEntry_spec req.prompt a r hfa
  exact hs.2.2.2.2 fun h2 => hn (hs.1 ▸ h2)

def c4wReq : ScanRequest := ⟨"all good".data, some ["secrets".data], none, none⟩

def c4wEntry : ScannerResult :=
  ⟨"secrets".data, "all good".data, "all good".data, true, 0, []⟩

theorem fallback_final_sanitized_spec_witness :
    c4wEntry.sanitized_prompt = c4wReq.prompt :=
  (fallback_final_sanitized_spec c4wReq).2 c4wEntry (by decide) (by decide)

def c5Req : ScanRequest := ⟨"hi".data, some ["secrets".data], none, none⟩

/-- A backend payload whose `secrets_result` advertises a risk score of
2, outside the unit interval. -/
def c5Payload : ApiData :=
  { emptyApiData with secrets_result := some ⟨none, none, some 2, none⟩ }

/-- Claim C5 as stated is false: the normalizer copies the backend's
`risk_score` without clamping, so a payload advertising a risk score of
2 produces a returned `ScannerResult` with `risk_score = 2`, which is
not in the closed interval from 0 to 1. -/
theorem normalizer_risk_unclamped :
    handleScan c5Req (.success c5Payload)
      = .scanResult (normalizeResponse c5Req c5Payload)
  ∧ ((normalizeResponse c5Req c5Payload).applied_scanners_results.map
        fun r => r.risk_score)
      = [(2 : ℚ)]
  ∧ ¬ ((2 : ℚ) ≤ 1) := by
  refine ⟨rfl, rfl, by norm_num⟩

/-- Claim C5 (amended): every `ScannerResult` produced by the fallback
path has `risk_score` in the closed unit interval; the normalizer path
copies the backend's risk score unclamped (defaulting to 0), so its
results lie in the interval only when the backend's values do. -/
theorem fallback_risk_in_unit_interval (req : ScanRequest)
    (r : ScannerResult)
    (hr : r ∈ (fallbackResponse req).applied_scanners_results) :
    0 ≤ r.risk_score ∧ r.risk_score ≤ 1 := by
  have hr2 : r ∈ (defaultScanners req.scanners).filterMap
      (fallbackEntry req.prompt) := hr
  rw [List.mem_filterMap] at hr2
  obtain ⟨a, _, hfa⟩ := hr2
  have hs := fallbackEntry_spec req.prompt a r hfa
  exact ⟨hs.2.2.1, hs.2.2.2.1⟩

def c5wReq : ScanRequest := ⟨"hello".data, none, none, none⟩

def c5wEntry : ScannerResult :=
  ⟨"anonymize".data, "hello".data, "hello".data, true, 0, []⟩

theorem fallback_risk_in_unit_interval_witness :
    0 ≤ c5wEntry.risk_score ∧ c5wEntry.risk_score ≤ 1 :=
  fallback_risk_in_unit_interval c5wReq c5wEntry (by decide)

def c6Req : ScanRequest := ⟨"hi there".data, some [], none, none⟩

/-- Claim C6 as stated is false for the empty-list half: an explicit
empty `scanners` list is truthy in JavaScript, so no default applies
and both paths return zero scanner results instead of one `anonymize`
result. -/
theorem empty_scanners_no_default :
    (fallbackResponse c6Req).applied_scanners_results = []
  ∧ (normalizeResponse c6Req emptyApiData).applied_scanners_results
      = [] :=
  ⟨rfl, rfl⟩

/-- Claim C6 (amended): a request whose `scanners` field is absent
behaves as if it were exactly `["anonymize"]` — both paths return one
result, for the `anonymize` scanner — while a request carrying an
explicit empty list yields an empty `applied_scanners_results`. -/
theorem absent_scanners_default_anonymize (p : Str)
    (b rx : Option (List Str)) (d : ApiData) :
    ((fallbackResponse ⟨p, none, b, rx⟩).applied_scanners_results.map
        fun r => r.scanner_name)
      = ["anonymize".data]
  ∧ ((normalizeResponse ⟨p, none, b, rx⟩ d).applied_scanners_results.map
        fun r => r.scanner_name)
      = ["anonymize".data]
  ∧ (fallbackResponse ⟨p, some [], b, rx⟩).applied_scanners_results = []
  ∧ (normalizeResponse ⟨p, some [], b, rx⟩ d).applied_scanners_results
      = [] := by
  refine ⟨rfl, ?_, rfl, rfl⟩
  show ((["anonymize".data].map (buildScannerResult p d)).map
      fun r => r.scanner_name) = ["anonymize".data]
  simp [buildScannerResult_name]

theorem lookupD_setKey (k : String) (v : DVal) (ds : Details) :
    lookupD (setKey k v ds) k = some v := by
  simp [setKey, lookupD]

/-- Claim C7: with only the `secrets` scanner requested and the remote
backend down, the fallback returns exactly one result whose
`sanitized_prompt` echoes the input, whose `is_valid` is the negation
of the triggered flag, and whose trigger condition is that the
lowercased prompt contains one of the eight fixed keywords; when the
prompt contains `password`, the result is invalid with risk score 0.95
and `password` listed among the matched terms in the details. -/
theorem secrets_scanner_spec (p : Str) :
    ((fallbackResponse
        (⟨p, some ["secrets".data], none, none⟩ : ScanRequest)).applied_scanners_results
      = [⟨"secrets".data, p, p,
          !(potentialSecrets.any fun w => strIncludes w (lowerStr p)),
          secretsRiskFB p, secretsDetailsFB p⟩])
  ∧ (strIncludes ("password".data) (lowerStr p) = true →
        hasSecrets p = true
      ∧ secretsRiskFB p = mkRat 95 100
      ∧ ("password".data)
          ∈ (potentialSecrets.filter fun w => strIncludes w (lowerStr p))
      ∧ lookupD (secretsDetailsFB p) "potential_matches"
          = some (DVal.strs (potentialSecrets.filter fun w =>
              strIncludes w (lowerStr p)))) := by
  constructor
  · rfl
  · intro h
    have hsec : hasSecrets p = true := by
      unfold hasSecrets
      exact List.any_eq_true.mpr ⟨"password".data, by decide, h⟩
    refine ⟨hsec, ?_, ?_, ?_⟩
    · unfold secretsRiskFB; rw [hsec]; rfl
    · exact List.mem_filter.mpr ⟨by decide, h⟩
    · unfold secretsDetailsFB; rw [hsec]; rfl

def c7wP : Str := "my password here".data

theorem secrets_scanner_spec_witness :
    hasSecrets c7wP = true
  ∧ secretsRiskFB c7wP = mkRat 95 100
  ∧ ("password".data)
      ∈ (potentialSecrets.filter fun w => strIncludes w (lowerStr c7wP)) := by
  have h := (secrets_scanner_spec c7wP).2 (by decide)
  exact ⟨h.1, h.2.1, h.2.2.1⟩

/-- Claim C8: in the normalizer path, whenever the payload carries a
`detection.toxicity` structure, every returned result for the
`toxicity` scanner has its per-item scores copied into
`details.toxicity_scores`, and its `is_valid` is false exactly when
some item's score exceeds 0.7. -/
theorem toxicity_override_spec (req : ScanRequest) (d : ApiData)
    (items : List ℚ) (hd : d.detection_toxicity = some items)
    (r : ScannerResult)
    (hr : r ∈ (normalizeResponse req d).applied_scanners_results)
    (hn : r.scanner_name = "toxicity".data) :
    r.is_valid = !(items.any fun score => score > mkRat 7 10)
  ∧ lookupD r.details "toxicity_scores" = some (DVal.qs items) := by
  have hr2 : r ∈ (defaultScanners req.scanners).map
      (buildScannerResult req.prompt d) := hr
  rw [List.mem_map] at hr2
  obtain ⟨a, _, hb⟩ := hr2
  subst hb
  rw [buildScannerResult_name] at hn
  subst hn
  unfold buildScannerResult
  rw [if_neg (by decide : ¬ ("toxicity".data = "anonymize".data)),
      if_pos rfl, hd]
  exact ⟨rfl, lookupD_setKey _ _ _⟩

def c8Req : ScanRequest := ⟨"hi all".data, some ["toxicity".data], none, none⟩

def c8Payload : ApiData :=
  { emptyApiData with detection_toxicity := some [mkRat 9 10, mkRat 2 10] }

def c8Entry : ScannerResult :=
  ⟨"toxicity".data, "hi all".data, "hi all".data, false, 0,
   [("toxicity_scores", DVal.qs [mkRat 9 10, mkRat 2 10])]⟩

theorem toxicity_override_spec_witness :
    c8Entry.is_valid
      = !([mkRat 9 10, mkRat 2 10].any fun score => score > mkRat 7 10)
  ∧ lookupD c8Entry.details "toxicity_scores"
      = some (DVal.qs [mkRat 9 10, mkRat 2 10]) :=
  toxicity_override_spec c8Req c8Payload [mkRat 9 10, mkRat 2 10] rfl c8Entry
    (by decide) rfl

/-- Claim C9: on a prompt in which none of the five PII patterns
(email, phone, credit card, SSN, capitalized name) matches — in
particular one consisting only of previously emitted redaction
placeholders — the fallback anonymize scanner performs no further
replacement and reports `is_valid = true` with `risk_score = 0`. -/
theorem anonymize_idempotent_on_sanitized (p : Str)
    (he : hasEmail p = false) (hp : hasPhone p = false)
    (hc : hasCreditCard p = false) (hs : hasSSN p = false)
    (hn : hasName p = false) :
    (fallbackResponse
        (⟨p, some ["anonymize".data], none, none⟩ : ScanRequest)).final_sanitized_prompt
      = p
  ∧ (fallbackResponse
        (⟨p, some ["anonymize".data], none, none⟩ : ScanRequest)).applied_scanners_results
      = [⟨"anonymize".data, p, p, true, 0, []⟩] := by
  have hpii : hasPII p = false := by
    unfold hasPII; rw [he, hp, hc, hs, hn]; rfl
  have he2 : fallbackEntry p ("anonymize".data)
      = some ⟨"anonymize".data, p, p, true, 0, []⟩ := by
    unfold fallbackEntry
    rw [if_pos rfl]
    unfold sanitizedPromptFB anonymizeValidFB anonymizeRiskFB
      anonymizeDetailsFB
    rw [hpii]
    rfl
  constructor
  · show sanitizedPromptFB p = p
    unfold sanitizedPromptFB; rw [hpii]; rfl
  · show ["anonymize".data].filterMap (fallbackEntry p)
        = [⟨"anonymize".data, p, p, true, 0, []⟩]
    rw [List.filterMap_cons, he2]
    rfl

def c9wP : Str := "[REDACTED_EMAIL] [REDACTED_SSN]".data

theorem anonymize_idempotent_witness :
    (fallbackResponse
        (⟨c9wP, some ["anonymize".data], none, none⟩ : ScanRequest)).final_sanitized_prompt
      = c9wP
  ∧ (fallbackResponse
        (⟨c9wP, some ["anonymize".data], none, none⟩ : ScanRequest)).applied_scanners_results
      = [⟨"anonymize".data, c9wP, c9wP, true, 0, []⟩] :=
  anonymize_idempotent_on_sanitized c9wP (by decide) (by decide)
    (by decide) (by decide) (by decide)

/-- Claim C10: in the normalizer path, an empty-string
`sanitized_prompt` — top-level or in a sub-object — is falsy, so the
coalescing chain silently substitutes the original, unredacted prompt
both in the per-scanner `sanitized_prompt` and in
`final_sanitized_prompt`: a backend that redacts a prompt down to the
empty string has its redaction undone. -/
theorem empty_sanitized_falls_back_to_prompt (req : ScanRequest)
    (d : ApiData) (htop : d.sanitized_prompt = some []) :
    ((normalizeResponse req d).final_sanitized_prompt = req.prompt)
  ∧ ∀ name sub, lookupSub d name = some sub →
      sub.sanitized_prompt = some [] →
      (buildScannerResult req.prompt d name).sanitized_prompt
        = req.prompt := by
  constructor
  · show jsOrStr d.sanitized_prompt req.prompt = req.prompt
    rw [htop]; rfl
  · intro name sub hsub hemp
    rw [buildScannerResult_sanitized]
    unfold baseResult
    rw [hsub]
    show jsOrStr sub.sanitized_prompt
        (jsOrStr d.sanitized_prompt req.prompt) = req.prompt
    rw [hemp, htop]
    rfl

def c10Req : ScanRequest :=
  ⟨"card data".data, some ["secrets".data], none, none⟩

def c10Payload : ApiData :=
  { emptyApiData with
      sanitized_prompt := some []
      secrets_result := some ⟨some [], none, none, none⟩ }

theorem empty_sanitized_witness :
    ((normalizeResponse c10Req c10Payload).final_sanitized_prompt
      = c10Req.prompt)
  ∧ (buildScannerResult c10Req.prompt c10Payload
        ("secrets".data)).sanitized_prompt = c10Req.prompt := by
  have h := empty_sanitized_falls_back_to_prompt c10Req c10Payload rfl
  exact ⟨h.1, h.2 ("secrets".data) ⟨some [], none, none, none⟩ rfl rfl⟩
